import Mathlib

/-!
Verification of the basil.js typography module (`src/includes/typography.js`)
against its natural-language specification.

The module is a facade over a host DOM: `text()` computes geometric bounds for
new text frames according to the active rectangle mode, `typo()` reads or
writes text properties over a polymorphic target (document, spread, page,
layer, story, text frame, text path, or a bare text range), and the style
entry points resolve and apply character/paragraph styles by name.

Host objects (documents, frames, paragraphs, styles, fonts) are shallowly
embedded as explicit immutable values; the live mutation performed by the
JavaScript code is rendered as returning the updated object alongside the
result.  Warnings emitted by the `warning()` helper are counted in the
output; exceptions thrown by the `error()` helper become `Except.error`
carrying the message from the source.
-/

namespace Basil

/-- The rectangle-interpretation modes (`pub.CORNER`, `pub.CORNERS`,
`pub.CENTER`, `pub.RADIUS`) consulted by `pub.text` through `currRectMode`. -/
inductive RectMode where
  | CORNER
  | CORNERS
  | CENTER
  | RADIUS
deriving DecidableEq, Repr

/-- The `textBounds` computation of the numeric branch of `pub.text`
(typography.js lines 52-73): the geometric bounds `[top, left, bottom, right]`
assigned to the created text frame for a call `text(txt, x, y, w, h)` under
the active rectangle mode. -/
def textBounds (mode : RectMode) (x y w h : ℚ) : List ℚ :=
  match mode with
  | .CORNER => [y, x, y + h, x + w]
  | .CORNERS => [y, x, h, w]
  | .CENTER => [y - h / 2, x - w / 2, y + h / 2, x + w / 2]
  | .RADIUS => [y - h, x - w, y + h, x + w]

/-!
## The `typo` attribute propagator

A paragraph (or any bare text range) is modelled by its property table: an
association list from property names to values of an arbitrary value type
`V`.  JavaScript property read `textItem[prop]` yields `undefined` when the
property is absent, modelled by `Option V`; assignment `textItem[prop] = val`
overwrites or adds the binding.
-/

/-- The property table of a host text item: name/value bindings. -/
abbrev Props (V : Type) := List (String × V)

/-- JavaScript property read `textItem[prop]`: `none` models `undefined`. -/
def getProp {V : Type} (p : Props V) (n : String) : Option V :=
  (p.find? (fun kv => kv.1 == n)).map (fun kv => kv.2)

/-- JavaScript property assignment `textItem[prop] = val`: overwrite the
binding for `n` (representation: new binding in front, old one removed). -/
def setProp {V : Type} (p : Props V) (n : String) (v : V) : Props V :=
  (n, v) :: p.filter (fun kv => ¬(kv.1 = n))

/-- The polymorphic target of `pub.typo`.  Document-like containers carry the
paragraph lists of their text frames; a text path carries the paragraphs of
its first text (`item.texts[0].paragraphs`) plus the remaining texts; `str`
is a raw string argument; `other` is a valid host object of none of the
recognized types; `stale` is a reference for which the `isValid` host check
fails (the underlying object was deleted). -/
inductive Item (V : Type) where
  | document (textFrames : List (List (Props V)))
  | spread (textFrames : List (List (Props V)))
  | page (textFrames : List (List (Props V)))
  | layer (textFrames : List (List (Props V)))
  | story (paragraphs : List (Props V))
  | textFrame (paragraphs : List (Props V))
  | textPath (textsHead : List (Props V)) (textsTail : List (List (Props V)))
  | textRange (t : Props V)
  | str (s : String)
  | other
  | stale
deriving DecidableEq, Repr

/-- The `property` argument of `pub.typo`: a property name (string) or an
object of property/value pairs. -/
inductive PropArg (V : Type) where
  | name (p : String)
  | map (m : List (String × V))
deriving DecidableEq, Repr

/-- An entry of the `result` array built by `pub.typo`: in getter mode the
read value (`undefined` possible), in setter mode the text item that was
pushed (a live reference, hence reflecting the mutation). -/
inductive ResEntry (V : Type) where
  | val (v : Option V)
  | item (p : Props V)
deriving DecidableEq, Repr

/-- The observable outcome of a `pub.typo` call: `result = none` models the
bare `return;` (returning `undefined`), `result = some l` models `return
result;`; `warnings` counts `warning()` emissions; `item` is the target after
the in-place mutations. -/
structure TypoOut (V : Type) where
  result : Option (List (ResEntry V))
  warnings : Nat
  item : Item V
deriving DecidableEq, Repr

/-- `actsAsGetter` from `pub.typo`: the call is a read exactly when the
property argument is a string and the value is `undefined`/`null`. -/
def actsAsGetter {V : Type} : PropArg V → Option V → Bool
  | .name _, none => true
  | _, _ => false

/-- The property name consulted in getter mode (in getter mode the property
argument is always a name; the `map` arm is never reached there). -/
def getterPropName {V : Type} : PropArg V → String
  | .name s => s
  | .map _ => ""

/-- `setProperties`/`setProperty` applied to one text item: with a string
property set that single property, with a map set every pair in order. -/
def updPara {V : Type} (prop : PropArg V) (value : Option V) (p : Props V) : Props V :=
  match prop, value with
  | .name s, some v => setProp p s v
  | .name _, none => p
  | .map m, _ => m.foldl (fun acc kv => setProp acc kv.1 kv.2) p

/-- The paragraph loop of `pub.typo` (lines 309-311): iterate the paragraph
list in reverse index order, pushing the read value (getter) or the mutated
paragraph (setter) for each; returns the pushed entries and the updated
paragraph list. -/
def typoParas {V : Type} (getter : Bool) (prop : PropArg V) (value : Option V)
    (ps : List (Props V)) : List (ResEntry V) × List (Props V) :=
  (ps.reverse.map (fun p =>
      if getter then ResEntry.val (getProp p (getterPropName prop))
      else ResEntry.item (updPara prop value p)),
   if getter then ps else ps.map (updPara prop value))

/-- The container branch of `pub.typo` (lines 295-301): `forEach` over the
text frames with a recursive `pub.typo` call on each frame, whose returned
result array is discarded; the frames themselves are mutated in place.  The
recursive call on a (valid) text frame amounts to running the paragraph loop
on its paragraphs, so the frames map to their updated paragraph lists. -/
def typoFrames {V : Type} (getter : Bool) (prop : PropArg V) (value : Option V)
    (fs : List (List (Props V))) : List (List (Props V)) :=
  if getter then fs else fs.map (fun ps => ps.map (updPara prop value))

/-- Shallow embedding of `pub.typo(item, property, value)` (typography.js
lines 263-316).  A raw string target throws; a target failing the host
`isValid` check warns once and returns `undefined`; container targets recurse
over their text frames discarding the recursive results; story/frame/path
targets run the reverse paragraph loop; a bare text range is processed
directly; any other valid object falls through every branch and the empty
`result` array is returned. -/
def typo {V : Type} (item : Item V) (prop : PropArg V) (value : Option V) :
    Except String (TypoOut V) :=
  let getter := actsAsGetter prop value
  match item with
  | .str _ => .error "typo() cannot work on strings. Please pass a Text object to modify."
  | .stale => .ok { result := none, warnings := 1, item := .stale }
  | .document fs =>
      .ok { result := some [], warnings := 0, item := .document (typoFrames getter prop value fs) }
  | .spread fs =>
      .ok { result := some [], warnings := 0, item := .spread (typoFrames getter prop value fs) }
  | .page fs =>
      .ok { result := some [], warnings := 0, item := .page (typoFrames getter prop value fs) }
  | .layer fs =>
      .ok { result := some [], warnings := 0, item := .layer (typoFrames getter prop value fs) }
  | .story ps =>
      .ok { result := some (typoParas getter prop value ps).1, warnings := 0,
            item := .story (typoParas getter prop value ps).2 }
  | .textFrame ps =>
      .ok { result := some (typoParas getter prop value ps).1, warnings := 0,
            item := .textFrame (typoParas getter prop value ps).2 }
  | .textPath ps rest =>
      .ok { result := some (typoParas getter prop value ps).1, warnings := 0,
            item := .textPath (typoParas getter prop value ps).2 rest }
  | .textRange p =>
      if getter then
        .ok { result := some [ResEntry.val (getProp p (getterPropName prop))],
              warnings := 0, item := .textRange p }
      else
        .ok { result := some [ResEntry.item (updPara prop value p)],
              warnings := 0, item := .textRange (updPara prop value p) }
  | .other => .ok { result := some [], warnings := 0, item := .other }

/-!
## Styles

Character/paragraph styles live in the current document's style collections.
Style lookup uses `findInStylesByName`, a helper of this repository that is
not under `src/`; it is modelled from the spec below.
-/

/-- A character or paragraph style of the host document: a name plus its
property set. -/
structure Style (V : Type) where
  name : String
  properties : Props V
deriving DecidableEq, Repr

/-- The current document's style collections (`currentDoc().characterStyles`
and `currentDoc().paragraphStyles`; the `all*Styles` collections are modelled
as the same lists). -/
structure Doc (V : Type) where
  characterStyles : List (Style V)
  paragraphStyles : List (Style V)
deriving DecidableEq, Repr

/-- Modelled from the spec: `findInStylesByName` (a repository helper not
under `src/`) searches a document style collection by exact name match,
returning the first style whose name equals the given one, or nothing. -/
def findInStylesByName {V : Type} (styles : List (Style V)) (n : String) : Option (Style V) :=
  styles.find? (fun s => s.name == n)

/-- A host text object, carrying its contents and its applied character
style (`appliedCharacterStyle`; every host text has one). -/
structure TextObj (V : Type) where
  contents : String
  appliedCharacterStyle : Style V
deriving DecidableEq, Repr

/-- The first argument of `pub.characterStyle`: a text object, a style name,
or something else (rejected). -/
inductive TextOrName (V : Type) where
  | text (t : TextObj V)
  | name (n : String)
  | other
deriving DecidableEq, Repr

/-- The tail of `pub.characterStyle`/`pub.paragraphStyle` after the style has
been resolved: optionally assign `style.properties = props` (the style is a
live member of the document collection, so the document copy with the same
name is updated as well), then return the style. -/
def styleWithProps {V : Type} (doc : Doc V) (s : Style V) (props : Option (Props V)) :
    Except String (Style V × Doc V) :=
  match props with
  | none => .ok (s, doc)
  | some pr =>
      let s2 : Style V := { s with properties := pr }
      .ok (s2, { doc with
        characterStyles := doc.characterStyles.map (fun t => if t.name = s.name then s2 else t) })

/-- Shallow embedding of `pub.characterStyle(textOrName, props)` (typography.js
lines 406-436): for a text object return its applied character style; for a
name search `allCharacterStyles` and, on a miss, create a new style of that
name in the document (`characterStyles.add({name: ...})`, default empty
property set); anything else throws. -/
def characterStyle {V : Type} (doc : Doc V) (textOrName : TextOrName V)
    (props : Option (Props V)) : Except String (Style V × Doc V) :=
  match textOrName with
  | .text t => styleWithProps doc t.appliedCharacterStyle props
  | .name n =>
      match findInStylesByName doc.characterStyles n with
      | some s => styleWithProps doc s props
      | none =>
          let s : Style V := { name := n, properties := [] }
          styleWithProps { doc with characterStyles := doc.characterStyles ++ [s] } s props
  | .other => .error "characterStyle(), wrong parameters. Use: textObject|name and props. Props is optional."

/-- The `style` argument of `pub.applyCharacterStyle`: a style instance, a
style name, or something that is no `CharacterStyle` (rejected). -/
inductive StyleArg (V : Type) where
  | style (s : Style V)
  | name (n : String)
  | other
deriving DecidableEq, Repr

/-- The `text` argument of `pub.applyCharacterStyle`: a bare text object, a
text frame (whose characters the style is applied to via
`characters.everyItem()`), a story, or something else (rejected). -/
inductive StyleText (V : Type) where
  | textObj (t : TextObj V)
  | textFrame (characters : List (TextObj V))
  | story (t : TextObj V)
  | other
deriving DecidableEq, Repr

/-- Shallow embedding of `pub.applyCharacterStyle(text, style)` (typography.js
lines 335-356): a style given by name is looked up in `allCharacterStyles`
and, when absent, the call throws without touching the document (no style is
created; the document collections are left as they were, which is why no
updated document is returned); then the argument shapes are validated and the
resolved style is assigned as `appliedCharacterStyle` (for a text frame: to
every character).  Returns the text the style was applied to. -/
def applyCharacterStyle {V : Type} (doc : Doc V) (text : StyleText V)
    (style : StyleArg V) : Except String (StyleText V) :=
  let resolved : Except String (Style V) :=
    match style with
    | .name n =>
        match findInStylesByName doc.characterStyles n with
        | some s => .ok s
        | none => .error ("applyCharacterStyle(), a character style named \"" ++ n ++ "\" does not exist.")
    | .style s => .ok s
    | .other => .error "applyCharacterStyle(), wrong parameters. Use: textObject|textFrame|story, characterStyle|name"
  match resolved with
  | .error e => .error e
  | .ok s =>
      match text with
      | .other => .error "applyCharacterStyle(), wrong parameters. Use: textObject|textFrame|story, characterStyle|name"
      | .textObj t => .ok (.textObj { t with appliedCharacterStyle := s })
      | .story t => .ok (.story { t with appliedCharacterStyle := s })
      | .textFrame cs => .ok (.textFrame (cs.map (fun c => { c with appliedCharacterStyle := s })))

/-!
## The Current Typography Context

The process-wide `curr*` variables read and written by the attribute
getter/setter entry points.  Alignment values are the host `Justification`
enum members, modelled by their names; `none` models the JavaScript
`undefined`.
-/

/-- A host font object (`app.fonts.itemByName(...)`). -/
structure Font where
  fontFamily : String
  fontStyleName : String
deriving DecidableEq, Repr

/-- The Current Typography Context: the `curr*` globals touched by the
attribute entry points of the typography module. -/
structure TypoState where
  currFont : Font
  currFontSize : ℚ
  currAlign : Option String
  currYAlign : Option String
  currLeading : ℚ
  currKerning : ℚ
  currTracking : ℚ
deriving DecidableEq, Repr

/-- The argument shapes of `pub.textAlign(align, yAlign)` by arity. -/
inductive TextAlignArgs where
  | zero
  | one (align : String)
  | two (align yAlign : String)
deriving DecidableEq, Repr

/-- Shallow embedding of `pub.textAlign` (typography.js lines 133-136):
`currAlign = align` unconditionally (with no argument this stores
`undefined`), and `currYAlign = yAlign` only for arity 2.  The function
returns nothing. -/
def textAlign (args : TextAlignArgs) (st : TypoState) : TypoState :=
  match args with
  | .zero => { st with currAlign := none }
  | .one a => { st with currAlign := some a }
  | .two a y => { st with currAlign := some a, currYAlign := some y }

/-- The argument shapes of `pub.textFont(fontName, fontStyle)` by arity
(`more` stands for a call with more than two arguments). -/
inductive FontArgs where
  | zero
  | one (fontName : String)
  | two (fontName fontStyle : String)
  | more
deriving DecidableEq, Repr

/-- The installed-font check and assignment of `pub.textFont`: look the full
name up among the installed host fonts (`app.fonts.itemByName(...).status`,
a host capability modelled as a partial map from full names to font objects);
when not installed, warn once and keep the current font; otherwise store the
found font.  Returns `(returned font, state, warnings)`. -/
def textFontLookup (fonts : String → Option Font) (fullName : String)
    (st : TypoState) : Except String (Font × TypoState × Nat) :=
  match fonts fullName with
  | none => .ok (st.currFont, st, 1)
  | some f => .ok (f, { st with currFont := f }, 0)

/-- Shallow embedding of `pub.textFont(fontName, fontStyle)` (typography.js
lines 150-170): with no argument return the current font unchanged; with one
argument look up `fontName ++ "\t" ++ "Regular"`; with two arguments look up
`fontName ++ "\t" ++ fontStyle`; with more arguments throw. -/
def textFont (fonts : String → Option Font) (args : FontArgs) (st : TypoState) :
    Except String (Font × TypoState × Nat) :=
  match args with
  | .zero => .ok (st.currFont, st, 0)
  | .one n => textFontLookup fonts (n ++ "\t" ++ "Regular") st
  | .two n s => textFontLookup fonts (n ++ "\t" ++ s) st
  | .more => .error "textFont(), wrong parameters. To set font use: fontName, fontStyle. fontStyle is optional."

/-- Shallow embedding of `pub.textSize(pointSize)` (typography.js lines
219-228): with no argument return the current size; with a positive argument
store and return it; otherwise throw (the stored size is left untouched
because the throw happens before any assignment). -/
def textSize (pointSize : Option ℚ) (st : TypoState) : Except String (ℚ × TypoState) :=
  match pointSize with
  | none => .ok (st.currFontSize, st)
  | some p =>
      if p > 0 then .ok (p, { st with currFontSize := p })
      else .error "textSize() must be greater than 0."

/-- Shallow embedding of `pub.textLeading(leading)` (typography.js lines
201-206). -/
def textLeading (leading : Option ℚ) (st : TypoState) : ℚ × TypoState :=
  match leading with
  | none => (st.currLeading, st)
  | some v => (v, { st with currLeading := v })

/-- Shallow embedding of `pub.textKerning(kerning)` (typography.js lines
183-188). -/
def textKerning (kerning : Option ℚ) (st : TypoState) : ℚ × TypoState :=
  match kerning with
  | none => (st.currKerning, st)
  | some v => (v, { st with currKerning := v })

/-- Shallow embedding of `pub.textTracking(tracking)` (typography.js lines
241-246). -/
def textTracking (tracking : Option ℚ) (st : TypoState) : ℚ × TypoState :=
  match tracking with
  | none => (st.currTracking, st)
  | some v => (v, { st with currTracking := v })

/-- A concrete host text object used by the concrete instances below. -/
def demoText : TextObj ℕ :=
  { contents := "hello"
    appliedCharacterStyle := { name := "Base", properties := [] } }

/-- A concrete Current Typography Context used by the concrete instances
below. -/
def demoState : TypoState :=
  { currFont := { fontFamily := "Helvetica", fontStyleName := "Regular" }
    currFontSize := 12
    currAlign := some "Justification.LEFT_ALIGN"
    currYAlign := some "VerticalJustification.TOP_ALIGN"
    currLeading := 14
    currKerning := 0
    currTracking := 0 }

/-!
## Helper lemmas
-/

/-- Reading a property right after assigning it yields the assigned value. -/
theorem getProp_setProp {V : Type} (p : Props V) (n : String) (v : V) :
    getProp (setProp p n v) n = some v := by
  simp [getProp, setProp, List.find?_cons_of_pos]

/-- Searching an appended list when the first part has no hit searches the
second part. -/
theorem find?_append_of_eq_none {α : Type} (l1 l2 : List α) (p : α → Bool)
    (h : l1.find? p = none) : (l1 ++ l2).find? p = l2.find? p := by
  induction l1 with
  | nil => rfl
  | cons a t ih =>
      cases hpa : p a with
      | true => rw [List.find?_cons_of_pos _ hpa] at h; exact absurd h (by simp)
      | false =>
          rw [List.find?_cons_of_neg _ (by simp [hpa])] at h
          rw [List.cons_append, List.find?_cons_of_neg _ (by simp [hpa])]
          exact ih h

/-- Mapping a constant function produces a replicated list. -/
theorem list_map_const {α β : Type} (l : List α) (c : β) :
    l.map (fun _ => c) = List.replicate l.length c := by
  induction l with
  | nil => rfl
  | cons a t ih => simp [List.replicate_succ, ih]

/-- Reading a property over the reverse of a paragraph list to which it was
just written yields the written value at every position. -/
theorem read_after_write_aux {V : Type} (ps : List (Props V)) (prop : String) (v : V) :
    ((ps.map (fun p => setProp p prop v)).reverse.map
        (fun p => ResEntry.val (getProp p prop)))
      = List.replicate ps.length (ResEntry.val (some v)) := by
  rw [← List.map_reverse, List.map_map]
  have hc : ((fun p => ResEntry.val (getProp p prop)) ∘ fun p => setProp p prop v)
      = fun (_ : Props V) => ResEntry.val (some v) := by
    funext p
    simp [Function.comp, getProp_setProp]
  rw [hc, list_map_const, List.length_reverse]

/-!
## Claim C1 — bounds of the numeric `text(txt, x, y, w, h)` call
-/

/-- Claim C1, counterexample: the claimed concrete instance is wrong — in
CORNER mode, `text(txt, 50, 50, 100, 200)` gives bounds
`[50, 50, 250, 150]` (bottom `y+h = 250`, right `x+w = 150`), not
`[50, 50, 150, 250]`. -/
theorem textBounds_corner_scenario_ce :
    textBounds RectMode.CORNER 50 50 100 200 ≠ [50, 50, 150, 250] := by
  simp only [textBounds]
  intro h
  rw [List.cons.injEq, List.cons.injEq, List.cons.injEq] at h
  exact absurd h.2.2.1 (by norm_num)

/-- Claim C1, amended: the geometric bounds `[top, left, bottom, right]` of a
numeric `text()` call follow the mode table — CORNER `[y, x, y+h, x+w]`,
CORNERS `[y, x, h, w]`, CENTER `[y-h/2, x-w/2, y+h/2, x+w/2]`, RADIUS
`[y-h, x-w, y+h, x+w]`; in particular `(50, 50, 100, 200)` in CORNER mode
yields top 50, left 50, bottom 250, right 150. -/
theorem textBounds_modes (x y w h : ℚ) :
    textBounds RectMode.CORNER x y w h = [y, x, y + h, x + w]
    ∧ textBounds RectMode.CORNERS x y w h = [y, x, h, w]
    ∧ textBounds RectMode.CENTER x y w h = [y - h / 2, x - w / 2, y + h / 2, x + w / 2]
    ∧ textBounds RectMode.RADIUS x y w h = [y - h, x - w, y + h, x + w]
    ∧ textBounds RectMode.CORNER 50 50 100 200 = [50, 50, 250, 150] :=
  ⟨rfl, rfl, rfl, rfl, by norm_num [textBounds]⟩

/-!
## Claims C2, C3, C4, C10 — the `typo` attribute propagator
-/

/-- Claim C2, counterexample: a read on a text frame with two paragraphs
returns the values in reverse paragraph order (the loop runs backwards), not
in document order; and a read on a Document target returns the empty list
(the recursive per-frame results are discarded), not one value per
paragraph. -/
theorem typo_read_order_ce :
    typo (Item.textFrame [[("pointSize", (1 : ℕ))], [("pointSize", 2)]])
        (PropArg.name "pointSize") none
      = Except.ok { result := some [ResEntry.val (some 2), ResEntry.val (some 1)],
                    warnings := 0,
                    item := Item.textFrame [[("pointSize", 1)], [("pointSize", 2)]] }
    ∧ ([ResEntry.val (some 2), ResEntry.val (some 1)] : List (ResEntry ℕ))
        ≠ [ResEntry.val (some 1), ResEntry.val (some 2)]
    ∧ typo (Item.document [[[("pointSize", (1 : ℕ))], [("pointSize", 2)]]])
        (PropArg.name "pointSize") none
      = Except.ok { result := some [], warnings := 0,
                    item := Item.document [[[("pointSize", 1)], [("pointSize", 2)]]] } :=
  ⟨rfl, by decide, rfl⟩

/-- Claim C2, amended: a read `typo(target, property)` on a Story, TextFrame
or TextPath target returns one value per paragraph, but in reverse paragraph
index order (the paragraph loop runs from the last index down); on a
Document target the recursive per-frame results are discarded and the
returned list is empty. -/
theorem typo_read_reverse_order {V : Type} (ps : List (Props V))
    (rest : List (List (Props V))) (fs : List (List (Props V))) (prop : String) :
    typo (Item.textFrame ps) (PropArg.name prop) none
      = Except.ok { result := some (ps.reverse.map (fun p => ResEntry.val (getProp p prop))),
                    warnings := 0, item := Item.textFrame ps }
    ∧ typo (Item.story ps) (PropArg.name prop) none
      = Except.ok { result := some (ps.reverse.map (fun p => ResEntry.val (getProp p prop))),
                    warnings := 0, item := Item.story ps }
    ∧ typo (Item.textPath ps rest) (PropArg.name prop) none
      = Except.ok { result := some (ps.reverse.map (fun p => ResEntry.val (getProp p prop))),
                    warnings := 0, item := Item.textPath ps rest }
    ∧ typo (Item.document fs) (PropArg.name prop) none
      = Except.ok { result := some [], warnings := 0, item := Item.document fs } :=
  ⟨rfl, rfl, rfl, rfl⟩

/-- Claim C3, counterexample: on a Document target the write reaches every
paragraph, but the immediately following read returns the empty list (the
recursion discards the per-frame results), not `[v]` for the one resolved
paragraph. -/
theorem typo_document_roundtrip_ce :
    typo (Item.document [[[("pointSize", (5 : ℕ))]]]) (PropArg.name "pointSize") (some 7)
      = Except.ok { result := some [], warnings := 0,
                    item := Item.document [[[("pointSize", 7)]]] }
    ∧ typo (Item.document [[[("pointSize", (7 : ℕ))]]]) (PropArg.name "pointSize") none
      = Except.ok { result := some [], warnings := 0,
                    item := Item.document [[[("pointSize", 7)]]] }
    ∧ (some ([] : List (ResEntry ℕ))) ≠ some [ResEntry.val (some 7)] :=
  ⟨rfl, rfl, by decide⟩

/-- Claim C3, amended: the write-then-read round trip `typo(t, p, v)` followed
by `typo(t, p)` yields the written value for every resolved paragraph — a
list of `v`s, one per paragraph — for Story, TextFrame, TextPath and bare
text range targets; for a Document target the write does update every
paragraph of every frame, but the following read returns the empty list. -/
theorem typo_write_then_read {V : Type} (ps : List (Props V))
    (rest : List (List (Props V))) (fs : List (List (Props V)))
    (q : Props V) (prop : String) (v : V) :
    typo (Item.textFrame ps) (PropArg.name prop) (some v)
      = Except.ok { result := some (ps.reverse.map (fun p => ResEntry.item (setProp p prop v))),
                    warnings := 0,
                    item := Item.textFrame (ps.map (fun p => setProp p prop v)) }
    ∧ typo (Item.textFrame (ps.map (fun p => setProp p prop v))) (PropArg.name prop) none
      = Except.ok { result := some (List.replicate ps.length (ResEntry.val (some v))),
                    warnings := 0,
                    item := Item.textFrame (ps.map (fun p => setProp p prop v)) }
    ∧ typo (Item.story (ps.map (fun p => setProp p prop v))) (PropArg.name prop) none
      = Except.ok { result := some (List.replicate ps.length (ResEntry.val (some v))),
                    warnings := 0,
                    item := Item.story (ps.map (fun p => setProp p prop v)) }
    ∧ typo (Item.textPath (ps.map (fun p => setProp p prop v)) rest) (PropArg.name prop) none
      = Except.ok { result := some (List.replicate ps.length (ResEntry.val (some v))),
                    warnings := 0,
                    item := Item.textPath (ps.map (fun p => setProp p prop v)) rest }
    ∧ typo (Item.textRange (setProp q prop v)) (PropArg.name prop) none
      = Except.ok { result := some [ResEntry.val (some v)],
                    warnings := 0, item := Item.textRange (setProp q prop v) }
    ∧ typo (Item.document fs) (PropArg.name prop) (some v)
      = Except.ok { result := some [], warnings := 0,
                    item := Item.document (fs.map (fun f => f.map (fun p => setProp p prop v))) }
    ∧ typo (Item.document (fs.map (fun f => f.map (fun p => setProp p prop v))))
        (PropArg.name prop) none
      = Except.ok { result := some [], warnings := 0,
                    item := Item.document (fs.map (fun f => f.map (fun p => setProp p prop v))) } := by
  refine ⟨rfl, ?_, ?_, ?_, ?_, rfl, rfl⟩
  · rw [← read_after_write_aux ps prop v]; exact rfl
  · rw [← read_after_write_aux ps prop v]; exact rfl
  · rw [← read_after_write_aux ps prop v]; exact rfl
  · rw [← getProp_setProp q prop v]; exact rfl

/-- Claim C4, counterexample: a write-mode `typo` call on a stale (invalid)
reference emits exactly one warning and raises no exception, but it returns
`undefined` (the bare `return;` on line 292), not the empty list. -/
theorem typo_stale_ce :
    typo (Item.stale : Item ℕ) (PropArg.name "pointSize") (some 12)
      = Except.ok { result := none, warnings := 1, item := Item.stale }
    ∧ (none : Option (List (ResEntry ℕ))) ≠ some [] :=
  ⟨rfl, by decide⟩

/-- Claim C4, amended: whenever `typo` is called with a target that fails the
`isValid` host check, the call emits exactly one warning, raises no
exception, and returns `undefined` (no result list) rather than an empty
list. -/
theorem typo_stale_warns {V : Type} (prop : PropArg V) (value : Option V) :
    typo Item.stale prop value
      = Except.ok { result := none, warnings := 1, item := Item.stale } :=
  rfl

/-- Claim C10: a valid, non-string item of none of the recognized target
types falls through every dispatch branch of `typo`: no error, no warning,
and the empty result list is returned. -/
theorem typo_unrecognized_falls_through {V : Type} (prop : PropArg V) (value : Option V) :
    typo Item.other prop value
      = Except.ok { result := some [], warnings := 0, item := Item.other } :=
  rfl

/-!
## Claims C5, C6 — style resolution and application
-/

/-- Claim C5: `characterStyle(name)` is an idempotent get-or-create — a
second call with the same name returns the identical style instance and
leaves the document unchanged, and the first call creates the style only if
no style of that name was present. -/
theorem characterStyle_idempotent {V : Type} (doc : Doc V) (n : String)
    (s1 : Style V) (d1 : Doc V)
    (h : characterStyle doc (TextOrName.name n) none = Except.ok (s1, d1)) :
    characterStyle d1 (TextOrName.name n) none = Except.ok (s1, d1)
    ∧ ((findInStylesByName doc.characterStyles n).isSome → d1 = doc) := by
  cases hf : findInStylesByName doc.characterStyles n with
  | some s =>
      simp only [characterStyle, hf, styleWithProps] at h
      rw [Except.ok.injEq, Prod.mk.injEq] at h
      obtain ⟨hs, hd⟩ := h
      subst hs
      subst hd
      exact ⟨by simp only [characterStyle, hf, styleWithProps], fun _ => rfl⟩
  | none =>
      simp only [characterStyle, hf, styleWithProps] at h
      rw [Except.ok.injEq, Prod.mk.injEq] at h
      obtain ⟨hs, hd⟩ := h
      subst hs
      subst hd
      constructor
      · have hfind : findInStylesByName
            (doc.characterStyles ++ [{ name := n, properties := [] }]) n
            = some { name := n, properties := [] } := by
          unfold findInStylesByName at hf ⊢
          rw [find?_append_of_eq_none _ _ _ hf]
          exact List.find?_cons_of_pos _ (by simp)
        simp only [characterStyle, hfind, styleWithProps]
      · intro hsome
        exact absurd hsome (by simp)

/-- Claim C5, concrete instance: resolving "NewStyle" twice in an initially
empty document returns the same style instance both times and does not touch
the document again. -/
theorem characterStyle_idempotent_witness :
    characterStyle ({ characterStyles := [{ name := "NewStyle", properties := [] }],
                      paragraphStyles := [] } : Doc ℕ)
        (TextOrName.name "NewStyle") none
      = Except.ok ({ name := "NewStyle", properties := [] },
          { characterStyles := [{ name := "NewStyle", properties := [] }],
            paragraphStyles := [] })
    ∧ ((findInStylesByName
          ({ characterStyles := [], paragraphStyles := [] } : Doc ℕ).characterStyles
          "NewStyle").isSome
        → ({ characterStyles := [{ name := "NewStyle", properties := [] }],
             paragraphStyles := [] } : Doc ℕ)
          = { characterStyles := [], paragraphStyles := [] }) :=
  characterStyle_idempotent { characterStyles := [], paragraphStyles := [] } "NewStyle"
    { name := "NewStyle", properties := [] }
    { characterStyles := [{ name := "NewStyle", properties := [] }], paragraphStyles := [] }
    rfl

/-- Claim C6: for a style name absent from the document collection,
`applyCharacterStyle` fails hard with the does-not-exist error and creates
nothing, while `characterStyle` with the same name succeeds and creates a
new style of that name as a side effect on the document. -/
theorem apply_vs_resolve_missing_style {V : Type} (doc : Doc V) (t : StyleText V)
    (n : String) (h : findInStylesByName doc.characterStyles n = none) :
    applyCharacterStyle doc t (StyleArg.name n)
      = Except.error ("applyCharacterStyle(), a character style named \""
          ++ n ++ "\" does not exist.")
    ∧ characterStyle doc (TextOrName.name n) none
      = Except.ok ({ name := n, properties := [] },
          { doc with characterStyles := doc.characterStyles
              ++ [{ name := n, properties := [] }] }) := by
  constructor
  · simp only [applyCharacterStyle, h]
  · simp only [characterStyle, h, styleWithProps]

/-- Claim C6, concrete instance: in an empty document, applying character
style "Missing" errors while resolving it creates it. -/
theorem apply_vs_resolve_missing_style_witness :
    applyCharacterStyle ({ characterStyles := [], paragraphStyles := [] } : Doc ℕ)
        (StyleText.textObj demoText)
        (StyleArg.name "Missing")
      = Except.error ("applyCharacterStyle(), a character style named \""
          ++ "Missing" ++ "\" does not exist.")
    ∧ characterStyle ({ characterStyles := [], paragraphStyles := [] } : Doc ℕ)
        (TextOrName.name "Missing") none
      = Except.ok ({ name := "Missing", properties := [] },
          { characterStyles := [] ++ [{ name := "Missing", properties := [] }],
            paragraphStyles := [] }) :=
  apply_vs_resolve_missing_style { characterStyles := [], paragraphStyles := [] }
    (StyleText.textObj demoText) "Missing" rfl

/-!
## Claims C7, C8, C9 — the Current Typography Context entry points
-/

/-- Claim C7: `textSize(pointSize)` with a non-positive size fails with the
greater-than-zero error and leaves the stored current size untouched, so a
subsequent no-argument `textSize()` still returns the prior size. -/
theorem textSize_nonpositive (p : ℚ) (st : TypoState) (h : p ≤ 0) :
    textSize (some p) st = Except.error "textSize() must be greater than 0."
    ∧ textSize none st = Except.ok (st.currFontSize, st) :=
  ⟨by simp [textSize, not_lt.mpr h], rfl⟩

/-- Claim C7, concrete instance: `textSize(0)` errors and the getter still
returns the prior size 12. -/
theorem textSize_nonpositive_witness :
    textSize (some 0) demoState = Except.error "textSize() must be greater than 0."
    ∧ textSize none demoState = Except.ok (demoState.currFontSize, demoState) :=
  textSize_nonpositive 0 demoState le_rfl

/-- Claim C8: `textFont` with a font name (one- or two-argument form) that is
not installed in the host emits one warning, leaves the current font
unchanged, and returns the prior current font instead of raising an error. -/
theorem textFont_not_installed (fonts : String → Option Font) (n s : String)
    (st : TypoState)
    (h1 : fonts (n ++ "\t" ++ "Regular") = none)
    (h2 : fonts (n ++ "\t" ++ s) = none) :
    textFont fonts (FontArgs.one n) st = Except.ok (st.currFont, st, 1)
    ∧ textFont fonts (FontArgs.two n s) st = Except.ok (st.currFont, st, 1) :=
  ⟨by simp [textFont, textFontLookup, h1], by simp [textFont, textFontLookup, h2]⟩

/-- Claim C8, concrete instance: with no fonts installed, `textFont` keeps
and returns the prior current font and warns once. -/
theorem textFont_not_installed_witness :
    textFont (fun _ => none) (FontArgs.one "Nonexistent Grotesk") demoState
      = Except.ok (demoState.currFont, demoState, 1)
    ∧ textFont (fun _ => none) (FontArgs.two "Nonexistent Grotesk" "Bold") demoState
      = Except.ok (demoState.currFont, demoState, 1) :=
  textFont_not_installed (fun _ => none) "Nonexistent Grotesk" "Bold" demoState rfl rfl

/-- Claim C9, counterexample: `textAlign()` with no arguments is not a
getter — it assigns `undefined` to the current alignment (so the alignment
does not stay unchanged), and the function returns no value at all. -/
theorem textAlign_zero_arg_ce :
    (textAlign TextAlignArgs.zero demoState).currAlign ≠ demoState.currAlign := by
  simp [textAlign, demoState]

/-- Claim C9, amended: font, size, leading, kerning and tracking are exposed
as getter/setter pairs whose zero-argument call is a pure getter returning
the current value without modifying the state; `textAlign` is the exception:
it is a setter only — with no arguments it overwrites the current alignment
with `undefined` (leaving the vertical alignment untouched) and returns no
value. -/
theorem context_getters (fonts : String → Option Font) (st : TypoState) :
    textFont fonts FontArgs.zero st = Except.ok (st.currFont, st, 0)
    ∧ textSize none st = Except.ok (st.currFontSize, st)
    ∧ textLeading none st = (st.currLeading, st)
    ∧ textKerning none st = (st.currKerning, st)
    ∧ textTracking none st = (st.currTracking, st)
    ∧ (textAlign TextAlignArgs.zero st).currAlign = none
    ∧ (textAlign TextAlignArgs.zero st).currYAlign = st.currYAlign :=
  ⟨rfl, rfl, rfl, rfl, rfl, rfl, rfl⟩

end Basil
